import Mathlib

/-
A shallow embedding of kb-color (src/kb-color.c), a Linux tool that sends a
9-byte HID feature report setting keyboard backlight color and brightness
and persists the last applied setting as a two-byte record.

Modelling conventions:
- uint8_t values are Nat reduced modulo 256 where the C code stores into a
  uint8_t (function parameters, the running checksum accumulator).
- The state file is `Option (List Nat)`: `none` when fopen fails (file
  absent/unreadable), `some bytes` the file content (one Nat per byte).
- A `uevent` descriptor line is modelled by the two facts the C loop
  extracts from it: the parse result of `sscanf(line, "HID_ID=%04X:%08X:%08X", ...)`
  (as `Option (Nat × Nat × Nat)`, `none` when fewer than 3 fields parse)
  and whether `strstr(line, "input3")` found the interface label.
- A candidate hidraw entry carries its directory name, the descriptor lines
  (`none` when the uevent file cannot be opened), whether `open(2)` on its
  /dev node succeeds, and the ioctl return value of the feature transfer.
-/

namespace KbColor

/- Device identification (kb-color.c lines 23-26). -/
def VENDOR_ID : Nat := 0x1044
def PRODUCT_ID : Nat := 0x7a3b
def HID_BUS_USB : Nat := 0x0003

/- Protocol constants (kb-color.c lines 35-45). -/
def PKT_SIZE : Nat := 9
def PKT_REPORT_ID : Nat := 0x00
def PKT_CMD : Nat := 0x08
def PKT_BYTE2 : Nat := 0x00
def PKT_BYTE3 : Nat := 0x01
def PKT_BYTE4 : Nat := 0x01
def PKT_BYTE7 : Nat := 0x01
def PKT_CHECKSUM_INIT : Nat := 0xff
def PKT_CHECKSUM_BYTES : Nat := 8
def PKT_BRIGHTNESS_DIV : Nat := 2

/- Color ids (kb-color.c lines 47-49). -/
def COLOR_ID_OFF : Nat := 0x05
def COLOR_COUNT : Nat := 7

/- Brightness range (kb-color.c lines 51-53). -/
def BRIGHTNESS_MIN : Nat := 0
def BRIGHTNESS_MAX : Nat := 100

/-- The COLORS table (kb-color.c lines 62-70): name and uint8_t id. -/
def COLORS : List (String × Nat) :=
  [("red", 1), ("green", 2), ("yellow", 3), ("blue", 4),
   ("orange", 5), ("purple", 6), ("white", 7)]

/-- The State struct (kb-color.c line 72): two uint8_t fields. -/
structure State where
  color_id : Nat
  brightness : Nat
deriving DecidableEq, Repr

/-- The lookup loop `color_id_from_name` (kb-color.c lines 118-123): id of
the first table entry whose name matches exactly, 0 when none matches. -/
def color_id_from_name (name : String) : Nat :=
  match COLORS.find? (fun c => c.1 == name) with
  | some c => c.2
  | none => 0

/-- The packet construction in `send_packet` (kb-color.c lines 126-138).
Parameters are uint8_t, so they are reduced mod 256 on entry. The checksum
accumulator `sum` is uint8_t, so each addition wraps mod 256; byte 8 is
`0xff - sum` where the int subtraction lands in [0,255] and is stored into
a uint8_t. The eight summed bytes are exactly pkt[0]..pkt[7] as assigned. -/
def packet (color_id brightness : Nat) : List Nat :=
  let cid := color_id % 256
  let b := brightness % 256
  let pkt5 := b / PKT_BRIGHTNESS_DIV
  let pkt6 := if BRIGHTNESS_MIN < b then cid else COLOR_ID_OFF
  let sum := List.foldl (fun s x => (s + x) % 256) 0
    [PKT_REPORT_ID, PKT_CMD, PKT_BYTE2, PKT_BYTE3, PKT_BYTE4, pkt5, pkt6, PKT_BYTE7]
  [PKT_REPORT_ID, PKT_CMD, PKT_BYTE2, PKT_BYTE3, PKT_BYTE4, pkt5, pkt6, PKT_BYTE7,
   (PKT_CHECKSUM_INIT - sum) % 256]

/-- One line of a candidate's uevent descriptor, reduced to the two facts
the scan loop (kb-color.c lines 155-162) extracts from it: the result of
parsing the HID_ID triple, and whether the line contains the interface
label "input3". -/
structure UeventLine where
  hid_id : Option (Nat × Nat × Nat)
  has_iface : Bool
deriving DecidableEq, Repr

/-- One entry of the /sys/class/hidraw directory as the enumeration loop
sees it (kb-color.c lines 145-175): its directory name, its uevent
descriptor (`none` when fopen on the uevent file fails), whether open(2)
on /dev/<name> succeeds, and the ioctl return value of the transfer. -/
structure Candidate where
  d_name : String
  uevent : Option (List UeventLine)
  open_ok : Bool
  ioctl_ret : Int
deriving DecidableEq, Repr

/-- The identity test applied to one parsed HID_ID line (kb-color.c line
158): bus is USB and vendor/product match the keyboard. -/
def hid_id_matches : Option (Nat × Nat × Nat) → Bool
  | some (bus, vid, pid) =>
      bus == HID_BUS_USB && vid == VENDOR_ID && pid == PRODUCT_ID
  | none => false

/-- The match_vid flag after the line loop (kb-color.c lines 154-159):
set when any descriptor line parses to the matching identity triple. -/
def match_vid (lines : List UeventLine) : Bool :=
  lines.any (fun l => hid_id_matches l.hid_id)

/-- The match_iface flag after the line loop (kb-color.c lines 154-162):
set when any descriptor line contains the interface label. -/
def match_iface (lines : List UeventLine) : Bool :=
  lines.any (fun l => l.has_iface)

/-- The enumeration loop of `send_packet` (kb-color.c lines 145-176):
walks the directory entries in order until a transfer returns PKT_SIZE.
Hidden entries, entries whose uevent cannot be read, entries missing
either match flag, entries whose node fails to open, and entries whose
transfer returns anything but PKT_SIZE are all skipped and scanning
continues. Returns the final `success` flag. -/
def scan_loop : List Candidate → Bool
  | [] => false
  | c :: rest =>
    if c.d_name.startsWith "." then scan_loop rest
    else
      match c.uevent with
      | none => scan_loop rest
      | some lines =>
        if !(match_vid lines) || !(match_iface lines) then scan_loop rest
        else if !c.open_ok then scan_loop rest
        else if c.ioctl_ret == (PKT_SIZE : Int) then true
        else scan_loop rest

/-- The candidates on which the loop reaches `open(devpath, O_RDWR)`
(kb-color.c line 168), i.e. the candidates discovery accepts, in scan
order, stopping after the one whose transfer succeeds. -/
def opened_nodes : List Candidate → List Candidate
  | [] => []
  | c :: rest =>
    if c.d_name.startsWith "." then opened_nodes rest
    else
      match c.uevent with
      | none => opened_nodes rest
      | some lines =>
        if !(match_vid lines) || !(match_iface lines) then opened_nodes rest
        else c :: (if c.open_ok && c.ioctl_ret == (PKT_SIZE : Int)
                   then [] else opened_nodes rest)

/-- The result of `send_packet` (kb-color.c lines 125-184): -1 when the
directory cannot be opened or no candidate's transfer succeeds, 0 on
success. The packet itself is `packet color_id brightness`. -/
def send_packet (color_id brightness : Nat)
    (dir : Option (List Candidate)) : Int :=
  let _pkt := packet color_id brightness
  match dir with
  | none => -1
  | some cands => if scan_loop cands then 0 else -1

/-- `save_state` (kb-color.c lines 100-107): best effort; when fopen for
writing fails the file is left as it was, otherwise the two-byte record
(color id, then brightness, both uint8_t) is written in one fwrite,
replacing any previous content. -/
def save_state (can_open : Bool) (file : Option (List Nat))
    (color_id brightness : Nat) : Option (List Nat) :=
  if can_open then some [color_id % 256, brightness % 256] else file

/-- `load_state` (kb-color.c lines 109-116): starts from the default
(last COLORS entry's id, BRIGHTNESS_MAX); when fopen fails the default is
returned; otherwise fread copies up to two bytes of the file over the
struct fields in order, and its return value is never checked, so a
one-byte file overwrites only color_id. -/
def load_state (file : Option (List Nat)) : State :=
  let s : State := ⟨(COLORS.getD (COLOR_COUNT - 1) ("", 0)).2, BRIGHTNESS_MAX⟩
  match file with
  | none => s
  | some bytes => ⟨bytes.getD 0 s.color_id, bytes.getD 1 s.brightness⟩

/-- The environment main runs against: the hidraw directory listing
(`none` when opendir fails) and whether save_state's fopen succeeds. -/
structure Env where
  dir : Option (List Candidate)
  save_open_ok : Bool

/-- The tail of `main` after argument merging (kb-color.c lines 227-234):
on send failure exit 1 leaving the state file untouched; on success call
save_state and exit 0. Returns (exit code, state file afterwards). -/
def main_tail (s : State) (env : Env) (file : Option (List Nat)) :
    Int × Option (List Nat) :=
  if send_packet s.color_id s.brightness env.dir < 0 then (1, file)
  else (0, save_state env.save_open_ok file s.color_id s.brightness)

/- Helper lemmas shared by the claim theorems. -/

/-- The sum of all nine packet bytes is 255 modulo 256: bytes 0-7 sum to
some S, and byte 8 is 255 minus S mod 256. -/
theorem packet_sum_mod (cid b : Nat) :
    ((packet cid b).foldl (· + ·) 0) % 256 = 255 := by
  simp [packet, PKT_REPORT_ID, PKT_CMD, PKT_BYTE2, PKT_BYTE3, PKT_BYTE4,
    PKT_BYTE7, PKT_CHECKSUM_INIT, PKT_BRIGHTNESS_DIV, COLOR_ID_OFF,
    BRIGHTNESS_MIN, List.foldl]
  split <;> omega

/-- Byte 5 of the packet is the (uint8_t) brightness divided by 2. -/
theorem packet_byte5 (cid b : Nat) :
    (packet cid b).getD 5 0 = (b % 256) / PKT_BRIGHTNESS_DIV := by
  simp [packet]

/-- Byte 6 of the packet is the effective color: the requested id when the
uint8_t brightness is positive, the off sentinel otherwise. -/
theorem packet_byte6 (cid b : Nat) :
    (packet cid b).getD 6 0 =
      if BRIGHTNESS_MIN < b % 256 then cid % 256 else COLOR_ID_OFF := by
  simp [packet]

/-- Every candidate in the opened-nodes list passed the descriptor check:
its uevent was readable and both match flags were set. -/
theorem opened_nodes_accept (cands : List Candidate) (d : Candidate)
    (hd : d ∈ opened_nodes cands) :
    ∃ ls, d.uevent = some ls ∧ match_vid ls = true ∧ match_iface ls = true := by
  induction cands with
  | nil => simp [opened_nodes] at hd
  | cons c rest ih =>
    simp only [opened_nodes] at hd
    split at hd
    · exact ih hd
    · split at hd
      · exact ih hd
      · rename_i lines hlines
        split at hd
        · exact ih hd
        · rename_i hcond
          rcases List.mem_cons.mp hd with h | h
          · subst h
            simp only [Bool.or_eq_true, Bool.not_eq_true', not_or,
              Bool.not_eq_false] at hcond
            exact ⟨lines, hlines, hcond.1, hcond.2⟩
          · split at h
            · simp at h
            · exact ih h

/- Claim theorems. -/

/-- C1 counterexample: with color blue (id 4) and brightness 50 the
constructed packet is not the 9-byte sequence the claim states, because
its checksum byte differs: bytes 0-7 sum to 0x28 = 40, so byte 8 is
255 - 40 = 0xD7, not 0xDC. -/
theorem C1_spec_packet_refuted :
    ¬ (packet 4 50 = [0x00, 0x08, 0x00, 0x01, 0x01, 0x19, 0x04, 0x01, 0xDC]) := by
  decide

/-- C1 amended: "blue" looks up to id 4; the packet for id 4 at
brightness 50 is [0x00,0x08,0x00,0x01,0x01,0x19,0x04,0x01,0xD7] (bytes
0-7 sum to 0x28 = 40, 255 - 40 = 215 = 0xD7); and on a successful save
the persisted record is exactly the two bytes [0x04,0x32]. -/
theorem C1_blue50_end_to_end :
    color_id_from_name "blue" = 4 ∧
    packet 4 50 = [0x00, 0x08, 0x00, 0x01, 0x01, 0x19, 0x04, 0x01, 0xD7] ∧
    ∀ file, save_state true file 4 50 = some [0x04, 0x32] :=
  ⟨by decide, by decide, fun _ => rfl⟩

/-- C2 counterexample: the off sentinel 0x05 is not distinct from every
named color id: it is exactly orange's id, and for orange at brightness 0
byte 6 equals the requested color's id. -/
theorem C2_sentinel_collides_with_orange :
    ("orange", COLOR_ID_OFF) ∈ COLORS ∧ (packet 5 0).getD 6 0 = 5 := by
  decide

/-- C2 amended: for every table color at brightness 0, byte 6 is the fixed
off sentinel; the sentinel coincides with a named color id exactly for
"orange", so byte 6 equals the requested color's id at brightness 0 exactly
when the requested color is orange. -/
theorem C2_off_sentinel (name : String) (cid : Nat)
    (hp : (name, cid) ∈ COLORS) :
    (packet cid 0).getD 6 0 = COLOR_ID_OFF ∧
    (COLOR_ID_OFF = cid ↔ name = "orange") := by
  fin_cases hp <;> exact ⟨by decide, by decide⟩

/-- C2 witness: the amended statement at the concrete color red. -/
theorem C2_off_sentinel_witness :
    ("red", 1) ∈ COLORS ∧
    ((packet 1 0).getD 6 0 = COLOR_ID_OFF ∧
     (COLOR_ID_OFF = 1 ↔ "red" = "orange")) :=
  ⟨by decide, C2_off_sentinel "red" 1 (by decide)⟩

/-- C3 counterexample: for color id 1 at brightness 100 the sum of the
nine packet bytes modulo 256 is 255, not 0. -/
theorem C3_zero_sum_refuted :
    ((packet 1 100).foldl (· + ·) 0) % 256 ≠ 0 := by
  decide

/-- C3 amended: for every packet, recomputing the sum of bytes 0 through 8
modulo 256 yields 255 (not 0). -/
theorem C3_recomputed_sum (cid b : Nat) :
    ((packet cid b).foldl (· + ·) 0) % 256 = 255 :=
  packet_sum_mod cid b

/-- C4: for every color id and brightness, byte 8 of the packet equals
255 minus the sum of bytes 0 through 7 taken modulo 256, again modulo
256. -/
theorem C4_checksum_byte (cid b : Nat) :
    (packet cid b).getD 8 0 =
      (255 - (((packet cid b).take 8).foldl (· + ·) 0) % 256) % 256 := by
  simp [packet, PKT_REPORT_ID, PKT_CMD, PKT_BYTE2, PKT_BYTE3, PKT_BYTE4,
    PKT_BYTE7, PKT_CHECKSUM_INIT, PKT_BRIGHTNESS_DIV, COLOR_ID_OFF,
    BRIGHTNESS_MIN, List.foldl, List.take]

/-- C5: for every table color and brightness at most 100, a positive
brightness puts the requested color's id in byte 6, and brightness 0 puts
the off sentinel 5 in byte 6 and 0 in byte 5. -/
theorem C5_effective_color (name : String) (cid b : Nat)
    (hp : (name, cid) ∈ COLORS) (hb : b ≤ 100) :
    (0 < b → (packet cid b).getD 6 0 = cid) ∧
    (b = 0 → (packet cid b).getD 6 0 = COLOR_ID_OFF ∧
             (packet cid b).getD 5 0 = 0) := by
  have hcid : cid < 256 := by fin_cases hp <;> decide
  constructor
  · intro hbpos
    have hc : BRIGHTNESS_MIN < b % 256 := by unfold BRIGHTNESS_MIN; omega
    rw [packet_byte6, if_pos hc, Nat.mod_eq_of_lt hcid]
  · intro hb0
    subst hb0
    rw [packet_byte6, packet_byte5]
    constructor
    · simp [BRIGHTNESS_MIN]
    · rfl

/-- C5 witness: the concrete color blue at brightness 50. -/
theorem C5_effective_color_witness :
    (("blue", 4) ∈ COLORS ∧ (50 : Nat) ≤ 100) ∧
    ((0 < 50 → (packet 4 50).getD 6 0 = 4) ∧
     ((50 : Nat) = 0 → (packet 4 50).getD 6 0 = COLOR_ID_OFF ∧
                       (packet 4 50).getD 5 0 = 0)) :=
  ⟨⟨by decide, by decide⟩, C5_effective_color "blue" 4 50 (by decide) (by decide)⟩

/-- C6: for every brightness at most 100, byte 5 of the packet is the
brightness divided by 2 with integer floor division. -/
theorem C6_brightness_byte (cid b : Nat) (hb : b ≤ 100) :
    (packet cid b).getD 5 0 = b / 2 := by
  rw [packet_byte5, Nat.mod_eq_of_lt (by omega)]
  rfl

/-- C6 witness: brightness 1 encodes as byte 0 (1 / 2 floors to 0). -/
theorem C6_brightness_byte_witness :
    (1 : Nat) ≤ 100 ∧ (packet 7 1).getD 5 0 = 1 / 2 :=
  ⟨by decide, C6_brightness_byte 7 1 (by decide)⟩

/-- C7: every candidate whose device node discovery opens passed the full
descriptor check (readable uevent, identity match and interface match,
regardless of line order), and a candidate whose descriptor lacks either
fact is skipped: both the success flag and the opened-node list of the
scan are the same as if scanning had started at the remaining entries. -/
theorem C7_descriptor_gate (cands : List Candidate) (c : Candidate)
    (rest : List Candidate) (lines : List UeventLine)
    (hu : c.uevent = some lines)
    (hone : match_vid lines = false ∨ match_iface lines = false) :
    (∀ d ∈ opened_nodes cands,
        ∃ ls, d.uevent = some ls ∧ match_vid ls = true ∧ match_iface ls = true) ∧
    scan_loop (c :: rest) = scan_loop rest ∧
    opened_nodes (c :: rest) = opened_nodes rest := by
  refine ⟨fun d hd => opened_nodes_accept cands d hd, ?_, ?_⟩ <;>
  · by_cases hdot : c.d_name.startsWith "."
    · simp [scan_loop, opened_nodes, hdot]
    · rcases hone with h | h <;>
        simp [scan_loop, opened_nodes, hdot, hu, h]

/-- C7 witness: a candidate whose descriptor carries only the interface
label (no identity line) is skipped and the scan continues. -/
theorem C7_descriptor_gate_witness :
    ((Candidate.mk "hidraw0" (some [⟨none, true⟩]) true 9).uevent
        = some [⟨none, true⟩] ∧
     (match_vid [⟨none, true⟩] = false ∨ match_iface [⟨none, true⟩] = false)) ∧
    ((∀ d ∈ opened_nodes [],
        ∃ ls, d.uevent = some ls ∧ match_vid ls = true ∧ match_iface ls = true) ∧
     scan_loop [Candidate.mk "hidraw0" (some [⟨none, true⟩]) true 9]
        = scan_loop [] ∧
     opened_nodes [Candidate.mk "hidraw0" (some [⟨none, true⟩]) true 9]
        = opened_nodes []) :=
  ⟨⟨rfl, Or.inl (by decide)⟩,
   C7_descriptor_gate [] (Candidate.mk "hidraw0" (some [⟨none, true⟩]) true 9)
     [] [⟨none, true⟩] rfl (Or.inl (by decide))⟩

/-- C8 counterexample: a persisted record of a single byte (here 0x02)
does not make load return the default (7, 100): fread's return value is
never checked, so the one byte overwrites color_id and load returns
(2, 100). -/
theorem C8_short_record_refuted :
    load_state (some [2]) ≠ { color_id := 7, brightness := 100 } := by
  decide

/-- C8 amended: load always returns a value; an absent or unreadable file,
or an empty record, yields the default (color id 7 = "white",
brightness 100); but a record shorter than two bytes is not detected:
a one-byte record overwrites only color_id, keeping default brightness
100, and records of two or more bytes yield their first two bytes. -/
theorem C8_load_default :
    load_state none = { color_id := 7, brightness := 100 } ∧
    load_state (some []) = { color_id := 7, brightness := 100 } ∧
    (∀ x, load_state (some [x]) = { color_id := x, brightness := 100 }) ∧
    (∀ x y rest, load_state (some (x :: y :: rest)) =
        { color_id := x, brightness := y }) :=
  ⟨rfl, rfl, fun _ => rfl, fun _ _ _ => rfl⟩

/-- C9: the run's tail mutates the state file only on a fully successful
transfer: a nonzero exit leaves the file exactly as it was, and a zero
exit either wrote the complete two-byte record (color id then brightness)
in one step or, when best-effort persistence could not open the file,
left it unchanged. -/
theorem C9_state_mutation_guard (s : State) (env : Env)
    (file : Option (List Nat)) :
    ((main_tail s env file).1 ≠ 0 → (main_tail s env file).2 = file) ∧
    ((main_tail s env file).1 = 0 →
      (main_tail s env file).2 = some [s.color_id % 256, s.brightness % 256] ∨
      ((main_tail s env file).2 = file ∧ env.save_open_ok = false)) := by
  rcases env with ⟨dir, save_ok⟩
  cases dir with
  | none => simp [main_tail, send_packet]
  | some cands =>
    by_cases h : scan_loop cands
    · cases save_ok <;> simp [main_tail, send_packet, save_state, h]
    · simp [main_tail, send_packet, h]

/-- C9 witness: a run against an empty device directory listing fails and
leaves an absent state file absent. -/
theorem C9_state_mutation_guard_witness :
    ((main_tail ⟨4, 50⟩ ⟨some [], true⟩ none).1 ≠ 0 →
      (main_tail ⟨4, 50⟩ ⟨some [], true⟩ none).2 = none) ∧
    ((main_tail ⟨4, 50⟩ ⟨some [], true⟩ none).1 = 0 →
      (main_tail ⟨4, 50⟩ ⟨some [], true⟩ none).2 = some [4 % 256, 50 % 256] ∨
      ((main_tail ⟨4, 50⟩ ⟨some [], true⟩ none).2 = none ∧
        (Env.mk (some []) true).save_open_ok = false)) :=
  C9_state_mutation_guard ⟨4, 50⟩ ⟨some [], true⟩ none

/-- C10: the constructed packet has exactly 9 bytes and they sum to 255
modulo 256 - this, not a zero sum, is the invariant every transmitted
packet satisfies. -/
theorem C10_packet_sum_invariant (cid b : Nat) :
    (packet cid b).length = 9 ∧
    ((packet cid b).foldl (· + ·) 0) % 256 = 255 :=
  ⟨rfl, packet_sum_mod cid b⟩

end KbColor
